import Mathlib

/-!
Verification of the LeRover robot's two core controllers against their
natural-language specification.

The embedding follows the Python sources:
  Project_Files/robot-final-version/src/line_follow.py
  Project_Files/robot-final-version/src/obstacle_navigator.py
Python floats are modelled as rationals (ℚ), Python ints as ℤ, and
Python's `int()` float truncation as `pyInt` (truncation toward zero).
-/

namespace LeRover

/-- `clamp` from line_follow.py / obstacle_navigator.py:
`lo if x < lo else hi if x > hi else x`, on floats (modelled as ℚ). -/
def clamp (x lo hi : ℚ) : ℚ := if x < lo then lo else if hi < x then hi else x

/-- Integer variant of `clamp` for servo angles and the drivetrain, same formula. -/
def zClamp (x lo hi : ℤ) : ℤ := if x < lo then lo else if hi < x then hi else x

/-- Python `int()` applied to a float: truncation toward zero. -/
def pyInt (q : ℚ) : ℤ := if q < 0 then ⌈q⌉ else ⌊q⌋

/-- Python `round()` applied to a float: round half to even. -/
def pyRound (q : ℚ) : ℤ :=
  let f := ⌊q⌋
  let r := q - f
  if r < 1/2 then f
  else if 1/2 < r then f + 1
  else if f % 2 = 0 then f else f + 1

/-- One 4-channel motor command, the argument tuple of
`Ordinary_Car.set_motor_model(a, b, c, d)`. -/
structure DriveCmd where
  m1 : ℤ
  m2 : ℤ
  m3 : ℤ
  m4 : ℤ
deriving DecidableEq, Repr

/-- The canonical stop command `set_motor_model(0,0,0,0)`. -/
def zeroCmd : DriveCmd := ⟨0, 0, 0, 0⟩

/-- Every wheel power of the command lies within [-2000, 2000]. -/
def cmdInRange (c : DriveCmd) : Prop :=
  (-2000 ≤ c.m1 ∧ c.m1 ≤ 2000) ∧ (-2000 ≤ c.m2 ∧ c.m2 ≤ 2000) ∧
  (-2000 ≤ c.m3 ∧ c.m3 ≤ 2000) ∧ (-2000 ≤ c.m4 ∧ c.m4 ≤ 2000)

instance (c : DriveCmd) : Decidable (cmdInRange c) := by
  unfold cmdInRange; infer_instance

/-- Modelled from the spec: `hardware/motor.py` (class `Ordinary_Car`,
method `set_motor_model`) is not under src/; only its callers are. The
spec's Drivetrain contract states each channel is clamped to
[-2000, 2000], so the drivetrain executes the clamp of each requested
channel power. -/
def driveExec (c : DriveCmd) : DriveCmd :=
  ⟨zClamp c.m1 (-2000) 2000, zClamp c.m2 (-2000) 2000,
   zClamp c.m3 (-2000) 2000, zClamp c.m4 (-2000) 2000⟩

/-- How a controller loop ends: external cancellation (KeyboardInterrupt)
or an in-loop error. In the Python sources both paths run the `finally`
block before the loop function returns. -/
inductive LoopExit where
  | canceled : LoopExit
  | errored : LoopExit
deriving DecidableEq

/-! ### Line follower (line_follow.py) -/

/-- One line-sensor triplet (left, mid, right), each bit 0/1. -/
structure Triplet where
  l : Bool
  m : Bool
  r : Bool
deriving DecidableEq, Repr

/-- The all-dark normalized reading: no sensor sees the line. -/
def darkTriplet : Triplet := ⟨false, false, false⟩

/-- Configuration of `line_follow.main` (its argparse options).
`tpPow` models Python's `mag ** args.tp_gamma` (libm `pow` at the
configured exponent `tp_gamma`): the embedding keeps the power map
abstract, as a function ℚ → ℚ. -/
structure LFConfig where
  activeLow : Bool
  invertSteer : Bool
  invertDrive : Bool
  kp : ℚ
  kd : ℚ
  baseStraight : ℤ
  baseMin : ℤ
  tpPow : ℚ → ℚ
  pivot : Bool
  pivotErr : ℚ
  pivotPower : ℤ
  lossConfirm : ℕ
  stopOnLoss : Bool
  coastScale : ℚ
  lossTimeout : ℕ
  biasAmbig : Bool

/-- `steer_sign = -1.0 if args.invert_steer else 1.0`. -/
def steerSign (cfg : LFConfig) : ℚ := if cfg.invertSteer then -1 else 1

/-- `drive_sign = -1.0 if args.invert_drive else 1.0`. -/
def qDriveSign (cfg : LFConfig) : ℚ := if cfg.invertDrive then -1 else 1

/-- Mutable loop state of `line_follow.main`:
`last_err`, `loss_count`, `coasting`, `coast_loops`, `last_left`, `last_right`. -/
structure LFState where
  lastErr : ℚ
  lossCount : ℕ
  coasting : Bool
  coastLoops : ℕ
  lastLeft : ℤ
  lastRight : ℤ
deriving DecidableEq, Repr

/-- Initial state of `line_follow.main` (all zero / neutral). -/
def initLF : LFState := ⟨0, 0, false, 0, 0, 0⟩

/-- Polarity normalization of `read_triplet`:
`if active_low: L, M, R = (1-L), (1-M), (1-R)`. -/
def normalizeTriplet (cfg : LFConfig) (t : Triplet) : Triplet :=
  if cfg.activeLow then ⟨!t.l, !t.m, !t.r⟩ else t

/-- `read_triplet`, including its failure behavior. The successful branch
normalizes the raw bits per `active_low`. Modelled from the spec:
`hardware/infrared.py` (`Infrared.read_one_infrared`) is not under src/,
so the failure case is modelled from the spec sentence "a sensor read
failure is treated identically to an all-dark reading": a failed read
(`none`) yields the normalized all-dark triplet. -/
def readTriplet (cfg : LFConfig) : Option Triplet → Triplet
  | some t => normalizeTriplet cfg t
  | none => darkTriplet

/-- `steer = steer_sign * (args.kp * err + args.kd * deriv)` with
`deriv = err - last_err`. -/
def steerOf (cfg : LFConfig) (lastErr err : ℚ) : ℚ :=
  steerSign cfg * (cfg.kp * err + cfg.kd * (err - lastErr))

/-- `base = int(args.base_straight - (args.base_straight - args.base_min) * (mag ** args.tp_gamma))`
with `mag = abs(err)`. -/
def baseOf (cfg : LFConfig) (err : ℚ) : ℤ :=
  pyInt ((cfg.baseStraight : ℚ) - ((cfg.baseStraight : ℚ) - (cfg.baseMin : ℚ)) * cfg.tpPow |err|)

/-- The pivot command pair before drive-sign scaling:
`(l_cmd, r_cmd) = (pivot_power, -pivot_power)` when `err > 0`,
`(-pivot_power, pivot_power)` otherwise. -/
def pivotRaw (cfg : LFConfig) (err : ℚ) : ℤ × ℤ :=
  if 0 < err then (cfg.pivotPower, -cfg.pivotPower) else (-cfg.pivotPower, cfg.pivotPower)

/-- The (left, right) wheel command of the PD section of `line_follow.main`:
pivot override when `args.pivot and abs(err) >= args.pivot_err`, otherwise
differential drive `clamp((base ∓ steer) * drive_sign, -2000, 2000)`. -/
def pdPair (cfg : LFConfig) (lastErr err : ℚ) : ℤ × ℤ :=
  let steer := steerOf cfg lastErr err
  let base := baseOf cfg err
  if cfg.pivot = true ∧ cfg.pivotErr ≤ |err| then
    let lr := pivotRaw cfg err
    (pyInt (clamp ((lr.1 : ℚ) * qDriveSign cfg) (-2000) 2000),
     pyInt (clamp ((lr.2 : ℚ) * qDriveSign cfg) (-2000) 2000))
  else
    (pyInt (clamp (((base : ℚ) - steer) * qDriveSign cfg) (-2000) 2000),
     pyInt (clamp (((base : ℚ) + steer) * qDriveSign cfg) (-2000) 2000))

/-- One iteration of the `while True` loop body of `line_follow.main`, from a
normalized triplet to the next state and the motor command issued this tick
(`car.set_motor_model(left, left, right, right)`; the loss-stop paths issue
`set_motor_model(0,0,0,0)`). -/
def lineTick (cfg : LFConfig) (st : LFState) (t : Triplet) : LFState × DriveCmd :=
  let onN : ℕ := t.l.toNat + t.m.toNat + t.r.toNat
  let lossCount := if onN = 0 then st.lossCount + 1 else 0
  let coasting := if onN = 0 then st.coasting else false
  let coastLoops := if onN = 0 then st.coastLoops else 0
  if onN = 0 ∧ cfg.lossConfirm ≤ lossCount then
    if cfg.stopOnLoss then
      ({ st with lossCount := lossCount, coasting := coasting, coastLoops := coastLoops },
       zeroCmd)
    else
      let coastLoops := coastLoops + 1
      if cfg.lossTimeout ≠ 0 ∧ cfg.lossTimeout < coastLoops then
        ({ st with lossCount := lossCount, coasting := true, coastLoops := coastLoops },
         zeroCmd)
      else
        let left := pyInt (clamp ((st.lastLeft : ℚ) * cfg.coastScale) (-2000) 2000)
        let right := pyInt (clamp ((st.lastRight : ℚ) * cfg.coastScale) (-2000) 2000)
        ({ st with lossCount := lossCount, coasting := true, coastLoops := coastLoops },
         ⟨left, left, right, right⟩)
  else
    let ambiguous := (t.l && t.m && t.r) || (t.l && !t.m && t.r)
    let err :=
      if 0 < onN then
        if cfg.biasAmbig && ambiguous then st.lastErr
        else ((-1) * (t.l.toNat : ℚ) + 0 * (t.m.toNat : ℚ) + 1 * (t.r.toNat : ℚ)) / (onN : ℚ)
      else st.lastErr
    let lr := pdPair cfg st.lastErr err
    ({ st with lastErr := err, lossCount := lossCount, coasting := coasting,
               coastLoops := coastLoops, lastLeft := lr.1, lastRight := lr.2 },
     ⟨lr.1, lr.1, lr.2, lr.2⟩)

/-- Run of the line-follow loop over a list of raw readings (each possibly a
failed read), collecting the issued motor commands. -/
def lineRun (cfg : LFConfig) (st : LFState) : List (Option Triplet) → LFState × List DriveCmd
  | [] => (st, [])
  | i :: is =>
    let o := lineTick cfg st (readTriplet cfg i)
    let rest := lineRun cfg o.1 is
    (rest.1, o.2 :: rest.2)

/-- `line_follow.main`: the loop runs over the inputs until the exit event
(cancellation or error); the `finally` block then issues
`car.set_motor_model(0,0,0,0)` on every exit path before returning. -/
def lineMain (cfg : LFConfig) (inputs : List (Option Triplet)) (_e : LoopExit) : List DriveCmd :=
  (lineRun cfg initLF inputs).2 ++ [zeroCmd]

/-- State after `n` consecutive all-dark ticks. -/
def lineDarkState (cfg : LFConfig) (st : LFState) : ℕ → LFState
  | 0 => st
  | n + 1 => (lineTick cfg (lineDarkState cfg st n) darkTriplet).1

/-- Motor command issued at the (n+1)-th consecutive all-dark tick. -/
def lineDarkEmit (cfg : LFConfig) (st : LFState) (n : ℕ) : DriveCmd :=
  (lineTick cfg (lineDarkState cfg st n) darkTriplet).2

/-- The coast command replayed from a stored last command:
`int(clamp(last * coast_scale, -2000, 2000))` on both sides. -/
def coastCmd (cfg : LFConfig) (st : LFState) : DriveCmd :=
  let left := pyInt (clamp ((st.lastLeft : ℚ) * cfg.coastScale) (-2000) 2000)
  let right := pyInt (clamp ((st.lastRight : ℚ) * cfg.coastScale) (-2000) 2000)
  ⟨left, left, right, right⟩

/-! ### Head-scan obstacle navigator (obstacle_navigator.py) -/

/-- One servo axis configuration (`PanServo` / `TiltServo`): `min_deg`,
`max_deg`, `center`. -/
structure ServoCfg where
  minDeg : ℤ
  maxDeg : ℤ
  center : ℤ
deriving DecidableEq, Repr

/-- `PanServo.angle` / `TiltServo.angle`: the physical angle actually set is
`int(clamp(deg, min_deg, max_deg))`. -/
def servoAngle (c : ServoCfg) (deg : ℤ) : ℤ := zClamp deg c.minDeg c.maxDeg

/-- State of one sweep oscillator (`PanSweeper` / `TiltOscillator`):
current position and direction (+1 / -1). -/
structure SweepState where
  pos : ℤ
  dir : ℤ
deriving DecidableEq, Repr

/-- `PanSweeper.tick` / `TiltOscillator.tick`: ping-pong between `lo` and
`hi` at `step` degrees per tick. -/
def sweepTick (lo hi step : ℤ) (s : SweepState) : SweepState :=
  let nxt := s.pos + s.dir * step
  if hi ≤ nxt then ⟨hi, -1⟩
  else if nxt ≤ lo then ⟨lo, 1⟩
  else ⟨nxt, s.dir⟩

/-- Configuration of `HeadUltrasonicNavigator` and its demo runner `main`. -/
structure NavConfig where
  pan : ServoCfg
  tilt : ServoCfg
  panLo : ℤ
  panHi : ℤ
  panSpeed : ℤ
  tiltLow : ℤ
  tiltHigh : ℤ
  tiltStep : ℤ
  forwardPower : ℤ
  turnPower : ℤ
  pivot : Bool
  invertDrive : Bool
  invertTurn : Bool
  obsTh : ℚ
  sampleEvery : ℕ
  reversePower : ℤ
  reverseTime : ℚ
  pivotMinDur : ℚ
  postRollTime : ℚ
deriving DecidableEq, Repr

/-- `self.drive_sign = -1 if invert_drive else 1`. -/
def zDriveSign (cfg : NavConfig) : ℤ := if cfg.invertDrive then -1 else 1

/-- `self.turn_sign = -1 if invert_turn else 1`. -/
def zTurnSign (cfg : NavConfig) : ℤ := if cfg.invertTurn then -1 else 1

/-- Mutable state of the navigator: the two oscillators, the tick counter,
the last published ahead distance, and the physical head angles. -/
structure NavState where
  ps : SweepState
  tos : SweepState
  ticks : ℕ
  lastAhead : ℚ
  headPan : ℤ
  headTilt : ℤ
deriving DecidableEq, Repr

/-- Initial navigator state as built by `main`: both oscillators start at
their servo's center with direction +1, and the head is driven there. -/
def navInit (cfg : NavConfig) : NavState :=
  { ps := ⟨cfg.pan.center, 1⟩, tos := ⟨cfg.tilt.center, 1⟩, ticks := 0,
    lastAhead := 9999, headPan := servoAngle cfg.pan cfg.pan.center,
    headTilt := servoAngle cfg.tilt cfg.tilt.center }

/-- `HeadUltrasonicNavigator._read_cm`: a raw device reading is valid only
within (0, 400]; `None`, non-positive, or > 400 readings become `none`. -/
def readCm (d : Option ℚ) : Option ℚ :=
  match d with
  | none => none
  | some v => if v ≤ 0 ∨ 400 < v then none else some v

/-- `HeadUltrasonicNavigator._avg_cm` with `n = 2` (every call site passes
`n=2`): average the valid readings of the two raw samples; if none are
valid, return the sentinel 9999.0. -/
def avgCm (a b : Option ℚ) : ℚ :=
  let vals := [a, b].filterMap readCm
  if vals.isEmpty then 9999 else vals.sum / (vals.length : ℚ)

/-- `HeadUltrasonicNavigator.forward(p)`: `p *= drive_sign;
set_motor_model(p, p, p, p)`. -/
def forwardCmd (cfg : NavConfig) (p : ℤ) : DriveCmd :=
  let q := p * zDriveSign cfg
  ⟨q, q, q, q⟩

/-- The "gentle forward creep" command of `tick`:
`self.forward(int(self.forward_power * 0.6))`. -/
def creepCmd (cfg : NavConfig) : DriveCmd :=
  forwardCmd cfg (pyInt ((cfg.forwardPower : ℚ) * (6/10)))

/-- The post-recovery roll command: `self.forward(int(self.forward_power * 0.7))`. -/
def rollCmd (cfg : NavConfig) : DriveCmd :=
  forwardCmd cfg (pyInt ((cfg.forwardPower : ℚ) * (7/10)))

/-- `HeadUltrasonicNavigator.reverse`: `p = reverse_power; p *= drive_sign;
set_motor_model(-p, -p, -p, -p)` (followed by a stop). -/
def reverseCmd (cfg : NavConfig) : DriveCmd :=
  let p := cfg.reversePower * zDriveSign cfg
  ⟨-p, -p, -p, -p⟩

/-- `pivot_left`: `pw = turn_power * turn_sign; set_motor_model(-pw, -pw, +pw, +pw)`. -/
def pivotLeftCmd (cfg : NavConfig) : DriveCmd :=
  let pw := cfg.turnPower * zTurnSign cfg
  ⟨-pw, -pw, pw, pw⟩

/-- `pivot_right`: `pw = turn_power * turn_sign; set_motor_model(+pw, +pw, -pw, -pw)`. -/
def pivotRightCmd (cfg : NavConfig) : DriveCmd :=
  let pw := cfg.turnPower * zTurnSign cfg
  ⟨pw, pw, -pw, -pw⟩

/-- `HeadUltrasonicNavigator._pivot_time_from_dist`:
`dist = clamp(dist, 10, 200); t = 0.22 + 0.33 * (dist - 10) / 190.0;
max(pivot_min_dur, t)`. -/
def pivotTimeFromDist (pivotMinDur : ℚ) (dist : ℚ) : ℚ :=
  let d := clamp dist 10 200
  let t := 22/100 + 33/100 * (d - 10) / 190
  max pivotMinDur t

/-- `HeadUltrasonicNavigator._peek_pan_tilt`: remember the oscillator
positions, steer the head to the clamped peek target, take a 2-sample
averaged reading, then restore the head to the remembered scan angles.
The oscillator state itself is never modified. -/
def peekPanTilt (cfg : NavConfig) (st : NavState) (panDeg tiltDeg : ℤ)
    (a b : Option ℚ) : ℚ × NavState :=
  let st1 := { st with
    headPan := servoAngle cfg.pan (zClamp panDeg cfg.pan.minDeg cfg.pan.maxDeg),
    headTilt := servoAngle cfg.tilt (zClamp tiltDeg cfg.tilt.minDeg cfg.tilt.maxDeg) }
  let d := avgCm a b
  (d, { st1 with headPan := servoAngle cfg.pan st.ps.pos,
                 headTilt := servoAngle cfg.tilt st.tos.pos })

/-- The sensor readings consumed by one navigator tick: the two raw device
samples for the ahead average, and the two raw samples of each of the four
probe peeks (taken only when the recovery sequence runs). -/
structure NavInput where
  ahead : Option ℚ × Option ℚ
  left : Option ℚ × Option ℚ
  right : Option ℚ × Option ℚ
  up : Option ℚ × Option ℚ
  down : Option ℚ × Option ℚ
deriving DecidableEq, Repr

/-- Observable outcome of one navigator tick: the next state, the motor
commands issued in order, the peek targets (pan, tilt) passed to
`_peek_pan_tilt` in order, and the duration passed to `pivot_left` /
`pivot_right` when the recovery sequence ran. -/
structure NavTickOut where
  state : NavState
  cmds : List DriveCmd
  probes : List (ℤ × ℤ)
  pivotDur : Option ℚ
deriving DecidableEq, Repr

/-- `HeadUltrasonicNavigator.tick`: advance both oscillators and apply the
angles, creep forward, and every `sample_every` ticks take an averaged
ahead sample; when it is at most `obs_th`, run the recovery sequence
stop → reverse → four peeks → pivot(toward greater clearance) → roll → stop. -/
def navTick (cfg : NavConfig) (st : NavState) (inp : NavInput) : NavTickOut :=
  let ps' := sweepTick cfg.panLo cfg.panHi (max 1 cfg.panSpeed) st.ps
  let to' := sweepTick cfg.tiltLow cfg.tiltHigh (max 1 cfg.tiltStep) st.tos
  let st1 : NavState := { st with
    ps := ps'
    tos := to'
    ticks := st.ticks + 1
    headPan := servoAngle cfg.pan ps'.pos
    headTilt := servoAngle cfg.tilt to'.pos }
  if st1.ticks % max 1 cfg.sampleEvery = 0 then
    let ahead := avgCm inp.ahead.1 inp.ahead.2
    let st2 := { st1 with lastAhead := ahead }
    if ahead ≤ cfg.obsTh then
      let pk1 := peekPanTilt cfg st2 (cfg.pan.center + 25) cfg.tilt.center inp.left.1 inp.left.2
      let pk2 := peekPanTilt cfg pk1.2 (cfg.pan.center - 25) cfg.tilt.center inp.right.1 inp.right.2
      let pk3 := peekPanTilt cfg pk2.2 cfg.pan.center
        (min cfg.tilt.maxDeg (cfg.tilt.center + 15)) inp.up.1 inp.up.2
      let pk4 := peekPanTilt cfg pk3.2 cfg.pan.center
        (max cfg.tilt.minDeg (cfg.tilt.center - 15)) inp.down.1 inp.down.2
      let leftMid := pk1.1
      let rightMid := pk2.1
      let upAhead := pk3.1
      let downAhead := pk4.1
      let lCl := if leftMid < cfg.obsTh then max leftMid (max upAhead downAhead) else leftMid
      let rCl := if rightMid < cfg.obsTh then max rightMid (max upAhead downAhead) else rightMid
      if rCl < lCl then
        { state := pk4.2,
          cmds := [creepCmd cfg, zeroCmd, reverseCmd cfg, zeroCmd, pivotLeftCmd cfg,
                   zeroCmd, rollCmd cfg, zeroCmd],
          probes := [(cfg.pan.center + 25, cfg.tilt.center),
                     (cfg.pan.center - 25, cfg.tilt.center),
                     (cfg.pan.center, min cfg.tilt.maxDeg (cfg.tilt.center + 15)),
                     (cfg.pan.center, max cfg.tilt.minDeg (cfg.tilt.center - 15))],
          pivotDur := some (pivotTimeFromDist cfg.pivotMinDur lCl) }
      else
        { state := pk4.2,
          cmds := [creepCmd cfg, zeroCmd, reverseCmd cfg, zeroCmd, pivotRightCmd cfg,
                   zeroCmd, rollCmd cfg, zeroCmd],
          probes := [(cfg.pan.center + 25, cfg.tilt.center),
                     (cfg.pan.center - 25, cfg.tilt.center),
                     (cfg.pan.center, min cfg.tilt.maxDeg (cfg.tilt.center + 15)),
                     (cfg.pan.center, max cfg.tilt.minDeg (cfg.tilt.center - 15))],
          pivotDur := some (pivotTimeFromDist cfg.pivotMinDur rCl) }
    else
      { state := st2, cmds := [creepCmd cfg], probes := [], pivotDur := none }
  else
    { state := st1, cmds := [creepCmd cfg], probes := [], pivotDur := none }

/-- Run of the navigator loop over a list of tick inputs, collecting all
issued motor commands in order. -/
def navRun (cfg : NavConfig) (st : NavState) : List NavInput → NavState × List DriveCmd
  | [] => (st, [])
  | i :: is =>
    let o := navTick cfg st i
    let rest := navRun cfg o.state is
    (rest.1, o.cmds ++ rest.2)

/-- Observable outcome of `obstacle_navigator.main`: all issued motor
commands and the final physical head angles. -/
structure NavMainOut where
  cmds : List DriveCmd
  finalPan : ℤ
  finalTilt : ℤ
deriving DecidableEq, Repr

/-- `obstacle_navigator.main`: ticks run until the exit event; the `finally`
block then issues `nav.stop()` and recenters the head
(`pan.angle(args.pan_center); tilt.angle(args.tilt_center)`) on every exit
path before returning. -/
def navMain (cfg : NavConfig) (inputs : List NavInput) (_e : LoopExit) : NavMainOut :=
  let r := navRun cfg (navInit cfg) inputs
  { cmds := r.2 ++ [zeroCmd],
    finalPan := servoAngle cfg.pan cfg.pan.center,
    finalTilt := servoAngle cfg.tilt cfg.tilt.center }

/-! ### Helper lemmas -/

lemma clamp_mem (x : ℚ) {lo hi : ℚ} (h : lo ≤ hi) :
    lo ≤ clamp x lo hi ∧ clamp x lo hi ≤ hi := by
  unfold clamp
  split_ifs with h1 h2
  · exact ⟨le_refl _, h⟩
  · exact ⟨h, le_refl _⟩
  · exact ⟨le_of_not_lt h1, le_of_not_lt h2⟩

lemma zClamp_mem (x : ℤ) {lo hi : ℤ} (h : lo ≤ hi) :
    lo ≤ zClamp x lo hi ∧ zClamp x lo hi ≤ hi := by
  unfold zClamp
  split_ifs with h1 h2
  · exact ⟨le_refl _, h⟩
  · exact ⟨h, le_refl _⟩
  · omega

lemma zClamp_eq_self {x lo hi : ℤ} (h1 : lo ≤ x) (h2 : x ≤ hi) :
    zClamp x lo hi = x := by
  unfold zClamp
  split_ifs <;> omega

lemma pyInt_mem {x : ℚ} {lo hi : ℤ} (h1 : (lo : ℚ) ≤ x) (h2 : x ≤ (hi : ℚ)) :
    lo ≤ pyInt x ∧ pyInt x ≤ hi := by
  unfold pyInt
  split_ifs with hx
  · refine ⟨?_, Int.ceil_le.mpr h2⟩
    calc lo = ⌈(lo : ℚ)⌉ := (Int.ceil_intCast lo).symm
    _ ≤ ⌈x⌉ := Int.ceil_le_ceil h1
  · refine ⟨Int.le_floor.mpr h1, ?_⟩
    calc ⌊x⌋ ≤ ⌊(hi : ℚ)⌋ := Int.floor_le_floor h2
    _ = hi := Int.floor_intCast hi

lemma pyInt_intCast (n : ℤ) : pyInt ((n : ℤ) : ℚ) = n := by
  unfold pyInt
  split_ifs
  · exact Int.ceil_intCast n
  · exact Int.floor_intCast n

lemma pyInt_clamp_mem (x : ℚ) :
    -2000 ≤ pyInt (clamp x (-2000) 2000) ∧ pyInt (clamp x (-2000) 2000) ≤ 2000 := by
  have h := clamp_mem x (show (-2000 : ℚ) ≤ 2000 by norm_num)
  have h1 : ((-2000 : ℤ) : ℚ) ≤ clamp x (-2000) 2000 := by push_cast; exact h.1
  have h2 : clamp x (-2000) 2000 ≤ ((2000 : ℤ) : ℚ) := by push_cast; exact h.2
  exact pyInt_mem h1 h2

lemma pdPair_fst_mem (cfg : LFConfig) (lastErr err : ℚ) :
    -2000 ≤ (pdPair cfg lastErr err).1 ∧ (pdPair cfg lastErr err).1 ≤ 2000 := by
  unfold pdPair
  split_ifs <;> exact pyInt_clamp_mem _

lemma pdPair_snd_mem (cfg : LFConfig) (lastErr err : ℚ) :
    -2000 ≤ (pdPair cfg lastErr err).2 ∧ (pdPair cfg lastErr err).2 ≤ 2000 := by
  unfold pdPair
  split_ifs <;> exact pyInt_clamp_mem _

lemma zeroCmd_inRange : cmdInRange zeroCmd := by
  unfold cmdInRange zeroCmd; norm_num

lemma driveExec_inRange (c : DriveCmd) : cmdInRange (driveExec c) := by
  have h : ((-2000 : ℤ)) ≤ 2000 := by norm_num
  exact ⟨zClamp_mem c.m1 h, zClamp_mem c.m2 h, zClamp_mem c.m3 h, zClamp_mem c.m4 h⟩

lemma lineTick_cmd_inRange (cfg : LFConfig) (st : LFState) (t : Triplet) :
    cmdInRange (lineTick cfg st t).2 := by
  unfold lineTick
  simp only [apply_ite Prod.snd]
  split_ifs
  all_goals first
    | exact zeroCmd_inRange
    | exact ⟨pyInt_clamp_mem _, pyInt_clamp_mem _, pyInt_clamp_mem _, pyInt_clamp_mem _⟩
    | exact ⟨pdPair_fst_mem cfg _ _, pdPair_fst_mem cfg _ _,
             pdPair_snd_mem cfg _ _, pdPair_snd_mem cfg _ _⟩

/-- The default argparse configuration of `line_follow.main` (the abstract
power map instantiated with the identity, a legitimate instance of
`mag ** tp_gamma`). -/
def defaultLF : LFConfig where
  activeLow := false
  invertSteer := true
  invertDrive := true
  kp := 1000
  kd := 380
  baseStraight := 420
  baseMin := 180
  tpPow := fun x => x
  pivot := true
  pivotErr := 6/10
  pivotPower := 1200
  lossConfirm := 10
  stopOnLoss := false
  coastScale := 85/100
  lossTimeout := 0
  biasAmbig := true

/-- The default argparse configuration of `obstacle_navigator.main`
(`reverse_power = int(800 * 0.8) = 640` from the `None` default). -/
def defaultNav : NavConfig where
  pan := ⟨10, 170, 90⟩
  tilt := ⟨60, 120, 80⟩
  panLo := 10
  panHi := 170
  panSpeed := 6
  tiltLow := 60
  tiltHigh := 120
  tiltStep := 3
  forwardPower := 800
  turnPower := 1200
  pivot := true
  invertDrive := true
  invertTurn := true
  obsTh := 45
  sampleEvery := 1
  reversePower := 640
  reverseTime := 1/2
  pivotMinDur := 45/100
  postRollTime := 1/4

/-- A tick input whose raw device readings all fail (timeouts). -/
def failInp : NavInput := ⟨(none, none), (none, none), (none, none), (none, none), (none, none)⟩

lemma avgCm_invalid {a b : Option ℚ} (ha : readCm a = none) (hb : readCm b = none) :
    avgCm a b = 9999 := by
  unfold avgCm
  simp [ha, hb]

lemma navTick_noObstacle (cfg : NavConfig) (st : NavState) (inp : NavInput)
    (hth : cfg.obsTh < 9999)
    (ha : readCm inp.ahead.1 = none) (hb : readCm inp.ahead.2 = none) :
    (navTick cfg st inp).cmds = [creepCmd cfg] ∧ (navTick cfg st inp).probes = [] ∧
    (navTick cfg st inp).pivotDur = none := by
  simp only [navTick, avgCm_invalid ha hb]
  rw [if_neg (not_le.mpr hth)]
  split_ifs <;> exact ⟨rfl, rfl, rfl⟩

set_option maxHeartbeats 800000 in
lemma navTick_cmds_cases (cfg : NavConfig) (st : NavState) (inp : NavInput) :
    ∀ c ∈ (navTick cfg st inp).cmds,
      c = creepCmd cfg ∨ c = zeroCmd ∨ c = reverseCmd cfg ∨
      c = pivotLeftCmd cfg ∨ c = pivotRightCmd cfg ∨ c = rollCmd cfg := by
  intro c hc
  simp only [navTick] at hc
  split_ifs at hc
  all_goals
    first
      | exact Or.inl (List.mem_singleton.mp hc)
      | (have h8 : c ∈ [creepCmd cfg, zeroCmd, reverseCmd cfg, zeroCmd, pivotLeftCmd cfg,
                        zeroCmd, rollCmd cfg, zeroCmd] := hc
         simp only [List.mem_cons, List.not_mem_nil, or_false] at h8
         tauto)
      | (have h8 : c ∈ [creepCmd cfg, zeroCmd, reverseCmd cfg, zeroCmd, pivotRightCmd cfg,
                        zeroCmd, rollCmd cfg, zeroCmd] := hc
         simp only [List.mem_cons, List.not_mem_nil, or_false] at h8
         tauto)

lemma defaultNav_cmd_inRange (c : DriveCmd)
    (h : c = creepCmd defaultNav ∨ c = zeroCmd ∨ c = reverseCmd defaultNav ∨
         c = pivotLeftCmd defaultNav ∨ c = pivotRightCmd defaultNav ∨ c = rollCmd defaultNav) :
    cmdInRange c := by
  have hcreep : creepCmd defaultNav = ⟨-480, -480, -480, -480⟩ := by
    unfold creepCmd forwardCmd pyInt zDriveSign defaultNav
    norm_num [Int.floor_eq_iff]
  have hroll : rollCmd defaultNav = ⟨-560, -560, -560, -560⟩ := by
    unfold rollCmd forwardCmd pyInt zDriveSign defaultNav
    norm_num [Int.floor_eq_iff]
  rcases h with h | h | h | h | h | h <;> subst h <;>
    simp_all [cmdInRange, zeroCmd, reverseCmd, pivotLeftCmd, pivotRightCmd,
              zDriveSign, zTurnSign, defaultNav]

/-! ### Claim theorems -/

/-- Claim C1: every DriveCommand emitted by either controller has each wheel
power within [-2000, 2000]. The line follower clamps every path itself; the
navigator's commands are within range once executed by the (spec-modelled)
clamping drivetrain, and at the default configuration even the requested
navigator powers are already within range. -/
theorem c1_wheel_powers_in_range :
    ∀ (cfg : LFConfig) (st : LFState) (t : Triplet)
      (ncfg : NavConfig) (nst : NavState) (inp : NavInput) (c : DriveCmd),
      cmdInRange (lineTick cfg st t).2 ∧
      (c ∈ (navTick ncfg nst inp).cmds → cmdInRange (driveExec c)) ∧
      (c ∈ (navTick defaultNav nst inp).cmds → cmdInRange c) := by
  intro cfg st t ncfg nst inp c
  refine ⟨lineTick_cmd_inRange cfg st t, fun _ => driveExec_inRange c, fun hc => ?_⟩
  exact defaultNav_cmd_inRange c (navTick_cmds_cases defaultNav nst inp c hc)

/-- Witness for C1 at a concrete input: the centered reading for the line
follower, and the creep command of a scan tick of the navigator. -/
theorem c1_witness :
    creepCmd defaultNav ∈ (navTick defaultNav (navInit defaultNav) failInp).cmds ∧
    cmdInRange (lineTick defaultLF initLF ⟨false, true, false⟩).2 ∧
    cmdInRange (driveExec (creepCmd defaultNav)) ∧
    cmdInRange (creepCmd defaultNav) := by
  have hmem : creepCmd defaultNav ∈ (navTick defaultNav (navInit defaultNav) failInp).cmds := by
    rw [(navTick_noObstacle defaultNav (navInit defaultNav) failInp
          (by norm_num [defaultNav]) rfl rfl).1]
    exact List.mem_singleton_self _
  have h := c1_wheel_powers_in_range defaultLF initLF ⟨false, true, false⟩
    defaultNav (navInit defaultNav) failInp (creepCmd defaultNav)
  exact ⟨hmem, h.1, h.2.1 hmem, h.2.2 hmem⟩

/-- Claim C2: every exit path of a controller loop issues a zero DriveCommand
before the loop function returns (the `finally` blocks), and for the head-scan
navigator the head angles are returned to their configured centers (which the
servo clamp leaves unchanged when the centers lie within the per-axis range). -/
theorem c2_zero_cmd_on_every_exit :
    ∀ (cfg : LFConfig) (inputs : List (Option Triplet)) (e : LoopExit)
      (ncfg : NavConfig) (ninputs : List NavInput) (e2 : LoopExit),
      (lineMain cfg inputs e).getLast? = some zeroCmd ∧
      (navMain ncfg ninputs e2).cmds.getLast? = some zeroCmd ∧
      (ncfg.pan.minDeg ≤ ncfg.pan.center → ncfg.pan.center ≤ ncfg.pan.maxDeg →
        (navMain ncfg ninputs e2).finalPan = ncfg.pan.center) ∧
      (ncfg.tilt.minDeg ≤ ncfg.tilt.center → ncfg.tilt.center ≤ ncfg.tilt.maxDeg →
        (navMain ncfg ninputs e2).finalTilt = ncfg.tilt.center) := by
  intro cfg inputs e ncfg ninputs e2
  refine ⟨?_, ?_, fun h1 h2 => ?_, fun h1 h2 => ?_⟩
  · unfold lineMain
    exact List.getLast?_concat _
  · unfold navMain
    exact List.getLast?_concat _
  · unfold navMain servoAngle
    exact zClamp_eq_self h1 h2
  · unfold navMain servoAngle
    exact zClamp_eq_self h1 h2

/-- Witness for C2 at the default configurations and an empty run. -/
theorem c2_witness :
    defaultNav.pan.minDeg ≤ defaultNav.pan.center ∧
    defaultNav.pan.center ≤ defaultNav.pan.maxDeg ∧
    defaultNav.tilt.minDeg ≤ defaultNav.tilt.center ∧
    defaultNav.tilt.center ≤ defaultNav.tilt.maxDeg ∧
    (lineMain defaultLF [] LoopExit.canceled).getLast? = some zeroCmd ∧
    (navMain defaultNav [] LoopExit.errored).cmds.getLast? = some zeroCmd ∧
    (navMain defaultNav [] LoopExit.errored).finalPan = defaultNav.pan.center ∧
    (navMain defaultNav [] LoopExit.errored).finalTilt = defaultNav.tilt.center := by
  have h := c2_zero_cmd_on_every_exit defaultLF [] LoopExit.canceled defaultNav []
    LoopExit.errored
  exact ⟨by decide, by decide, by decide, by decide, h.1, h.2.1,
         h.2.2.1 (by decide) (by decide), h.2.2.2 (by decide) (by decide)⟩

/-- Claim C7: a line-sensor read failure yields exactly the all-dark reading
(spec-modelled boundary, since `hardware/infrared.py` is not under src/);
the tick on a failed read is the all-dark tick, and the loop processes every
input, emitting one command per tick, hence never aborts. -/
theorem c7_read_failure_never_aborts :
    ∀ (cfg : LFConfig) (st : LFState) (inputs : List (Option Triplet)),
      readTriplet cfg none = darkTriplet ∧
      lineTick cfg st (readTriplet cfg none) = lineTick cfg st darkTriplet ∧
      (lineRun cfg st inputs).2.length = inputs.length := by
  intro cfg st inputs
  refine ⟨rfl, rfl, ?_⟩
  induction inputs generalizing st with
  | nil => rfl
  | cons i is ih => simp [lineRun, ih]

/-- Claim C8: the navigator's pivot duration is exactly
`max(pivotMinDur, 0.22 + 0.33 * (clamp(d, 10, 200) - 10) / 190)`, bounded
below by `pivotMinDur`; at `d = 10` it is `pivotMinDur` (whenever
`pivotMinDur ≥ 0.22`) and at `d = 200` it is 0.55 s (whenever
`pivotMinDur ≤ 0.55`). -/
theorem c8_pivot_duration_formula :
    ∀ (minDur d : ℚ),
      pivotTimeFromDist minDur d
        = max minDur (22/100 + 33/100 * (clamp d 10 200 - 10) / 190) ∧
      minDur ≤ pivotTimeFromDist minDur d ∧
      (22/100 ≤ minDur → pivotTimeFromDist minDur 10 = minDur) ∧
      (minDur ≤ 55/100 → pivotTimeFromDist minDur 200 = 55/100) := by
  intro minDur d
  refine ⟨rfl, le_max_left _ _, fun h => ?_, fun h => ?_⟩
  · show max minDur (22/100 + 33/100 * (clamp 10 10 200 - 10) / 190) = minDur
    have hcl : clamp 10 10 200 = (10 : ℚ) := by
      unfold clamp
      norm_num
    rw [hcl, show (22 : ℚ)/100 + 33/100 * ((10 : ℚ) - 10) / 190 = 22/100 by norm_num]
    exact max_eq_left h
  · show max minDur (22/100 + 33/100 * (clamp 200 10 200 - 10) / 190) = 55/100
    have hcl : clamp 200 10 200 = (200 : ℚ) := by
      unfold clamp
      norm_num
    rw [hcl, show (22 : ℚ)/100 + 33/100 * ((200 : ℚ) - 10) / 190 = 55/100 by norm_num]
    exact max_eq_right h

/-- Witness for C8 at the default `pivot_min_dur = 0.45`. -/
theorem c8_witness :
    (22/100 : ℚ) ≤ 45/100 ∧ (45/100 : ℚ) ≤ 55/100 ∧
    pivotTimeFromDist (45/100) 10 = 45/100 ∧
    pivotTimeFromDist (45/100) 200 = 55/100 :=
  ⟨by norm_num, by norm_num,
   (c8_pivot_duration_formula (45/100) 10).2.2.1 (by norm_num),
   (c8_pivot_duration_formula (45/100) 200).2.2.2 (by norm_num)⟩

/-- Claim C5: a range sample outside (0, 400] (or a timeout) is discarded by
`_read_cm`; when both samples of an average are invalid the sentinel 9999.0
is substituted, and a tick whose ahead samples are all invalid never enters
the recovery sequence (for any threshold below the sentinel). -/
theorem c5_invalid_sample_no_recovery :
    ∀ (x : ℚ) (cfg : NavConfig) (st : NavState) (inp : NavInput),
      (x ≤ 0 ∨ 400 < x → readCm (some x) = none) ∧
      readCm (none : Option ℚ) = none ∧
      (readCm inp.ahead.1 = none → readCm inp.ahead.2 = none →
        avgCm inp.ahead.1 inp.ahead.2 = 9999) ∧
      (cfg.obsTh < 9999 → readCm inp.ahead.1 = none → readCm inp.ahead.2 = none →
        (navTick cfg st inp).cmds = [creepCmd cfg] ∧
        (navTick cfg st inp).probes = [] ∧
        (navTick cfg st inp).pivotDur = none) := by
  intro x cfg st inp
  refine ⟨fun hx => ?_, rfl, fun ha hb => avgCm_invalid ha hb,
          fun hth ha hb => navTick_noObstacle cfg st inp hth ha hb⟩
  simp only [readCm]
  rw [if_pos hx]

/-- Witness for C5: an out-of-window sample (500 cm) and a tick whose ahead
reads both fail, at the default configuration. -/
theorem c5_witness :
    ((500 : ℚ) ≤ 0 ∨ (400 : ℚ) < 500) ∧ defaultNav.obsTh < 9999 ∧
    readCm (some (500 : ℚ)) = none ∧
    (navTick defaultNav (navInit defaultNav) failInp).pivotDur = none := by
  have h := c5_invalid_sample_no_recovery 500 defaultNav (navInit defaultNav) failInp
  exact ⟨Or.inr (by norm_num), by norm_num [defaultNav], h.1 (Or.inr (by norm_num)),
         (h.2.2.2 (by norm_num [defaultNav]) rfl rfl).2.2⟩

/-- Claim C4: with pivot enabled, the pivot override is taken exactly when
`|err| ≥ pivotErr`; the pre-drive-sign pivot pair is `(+pivotPower,
-pivotPower)` for `err > 0` and `(-pivotPower, +pivotPower)` otherwise —
equal magnitudes, opposite signs — and below the threshold the differential
formula is used instead. -/
theorem c4_pivot_iff_threshold :
    ∀ (cfg : LFConfig) (lastErr err : ℚ), cfg.pivot = true →
      (cfg.pivotErr ≤ |err| →
        pdPair cfg lastErr err =
          (pyInt (clamp (((pivotRaw cfg err).1 : ℚ) * qDriveSign cfg) (-2000) 2000),
           pyInt (clamp (((pivotRaw cfg err).2 : ℚ) * qDriveSign cfg) (-2000) 2000)) ∧
        (pivotRaw cfg err).1 = -((pivotRaw cfg err).2) ∧
        (0 < err → pivotRaw cfg err = (cfg.pivotPower, -cfg.pivotPower)) ∧
        (err ≤ 0 → pivotRaw cfg err = (-cfg.pivotPower, cfg.pivotPower))) ∧
      (|err| < cfg.pivotErr →
        pdPair cfg lastErr err =
          (pyInt (clamp (((baseOf cfg err : ℚ) - steerOf cfg lastErr err) * qDriveSign cfg)
             (-2000) 2000),
           pyInt (clamp (((baseOf cfg err : ℚ) + steerOf cfg lastErr err) * qDriveSign cfg)
             (-2000) 2000))) := by
  intro cfg lastErr err hp
  constructor
  · intro hge
    refine ⟨?_, ?_, fun h0 => ?_, fun h0 => ?_⟩
    · simp only [pdPair]
      rw [if_pos ⟨hp, hge⟩]
    · unfold pivotRaw
      split_ifs <;> simp
    · unfold pivotRaw
      rw [if_pos h0]
    · unfold pivotRaw
      rw [if_neg (not_lt.mpr h0)]
  · intro hlt
    simp only [pdPair]
    rw [if_neg fun hand => absurd hand.2 (not_le.mpr hlt)]

/-- Witness for C4: the sharply-left reading `err = -1` at the default
configuration engages pivot with an antisymmetric pair. -/
theorem c4_witness :
    defaultLF.pivot = true ∧ defaultLF.pivotErr ≤ |(-1 : ℚ)| ∧
    pdPair defaultLF 0 (-1) =
      (pyInt (clamp (((pivotRaw defaultLF (-1)).1 : ℚ) * qDriveSign defaultLF) (-2000) 2000),
       pyInt (clamp (((pivotRaw defaultLF (-1)).2 : ℚ) * qDriveSign defaultLF) (-2000) 2000)) ∧
    (pivotRaw defaultLF (-1)).1 = -((pivotRaw defaultLF (-1)).2) := by
  have hge : defaultLF.pivotErr ≤ |(-1 : ℚ)| := by norm_num [defaultLF]
  have h := c4_pivot_iff_threshold defaultLF 0 (-1) rfl
  exact ⟨rfl, hge, (h.1 hge).1, (h.1 hge).2.1⟩

/-- Counterexample to C9 as stated: at `error = 0` with `lastError = 1/2`,
the steering correction is `steerSign * kd * (0 - 1/2) = 190 ≠ 0` at the
default gains — the derivative term does not vanish. -/
theorem c9_counterexample : steerOf defaultLF (1/2) 0 ≠ 0 := by
  unfold steerOf steerSign defaultLF
  norm_num

/-- Claim C9 (amended): whenever `error = 0` the base speed is `baseStraight`,
and the steering correction is 0 provided additionally `lastError = 0` (no
derivative kick); whenever `|error| = 1` the base speed is `baseMin`. The
hypotheses on the power map hold for any exponent: `0 ** g = 0`, `1 ** g = 1`. -/
theorem c9_speed_shaping :
    ∀ (cfg : LFConfig) (lastErr err : ℚ),
      cfg.tpPow 0 = 0 → cfg.tpPow 1 = 1 →
      (err = 0 → baseOf cfg err = cfg.baseStraight) ∧
      (err = 0 → lastErr = 0 → steerOf cfg lastErr err = 0) ∧
      (|err| = 1 → baseOf cfg err = cfg.baseMin) := by
  intro cfg lastErr err h0 h1
  refine ⟨fun he => ?_, fun he hl => ?_, fun he => ?_⟩
  · subst he
    unfold baseOf
    rw [abs_zero, h0, mul_zero, sub_zero]
    exact pyInt_intCast _
  · subst he
    subst hl
    simp [steerOf]
  · unfold baseOf
    rw [he, h1, mul_one]
    have hcast : (cfg.baseStraight : ℚ) - ((cfg.baseStraight : ℚ) - (cfg.baseMin : ℚ))
        = ((cfg.baseMin : ℤ) : ℚ) := by
      ring
    rw [hcast]
    exact pyInt_intCast _

/-- Witness for C9 (amended) at the default configuration. -/
theorem c9_witness :
    defaultLF.tpPow 0 = 0 ∧ defaultLF.tpPow 1 = 1 ∧ |(1 : ℚ)| = 1 ∧
    baseOf defaultLF 0 = defaultLF.baseStraight ∧
    steerOf defaultLF 0 0 = 0 ∧
    baseOf defaultLF 1 = defaultLF.baseMin := by
  have h := c9_speed_shaping defaultLF 0 0 rfl rfl
  have h1 := c9_speed_shaping defaultLF 0 1 rfl rfl
  exact ⟨rfl, rfl, by norm_num, h.1 rfl, h.2.1 rfl rfl, h1.2.2 (by norm_num)⟩

lemma lineTick_dark_pd (cfg : LFConfig) (st : LFState)
    (h : st.lossCount + 1 < cfg.lossConfirm) :
    lineTick cfg st darkTriplet =
      ({ st with lossCount := st.lossCount + 1,
                 lastLeft := (pdPair cfg st.lastErr st.lastErr).1,
                 lastRight := (pdPair cfg st.lastErr st.lastErr).2 },
       ⟨(pdPair cfg st.lastErr st.lastErr).1, (pdPair cfg st.lastErr st.lastErr).1,
        (pdPair cfg st.lastErr st.lastErr).2, (pdPair cfg st.lastErr st.lastErr).2⟩) := by
  have hA : ¬ cfg.lossConfirm ≤ st.lossCount + 1 := by omega
  simp [lineTick, darkTriplet, hA]

/-- Claim C10: on an all-dark tick before the loss counter reaches
`lossConfirm`, the controller stays on the PD path: it reuses `lastError`
as the error, computes the PD command from it, emits that (possibly
nonzero) command and stores it, incrementing only the loss counter. -/
theorem c10_dark_before_confirm_runs_pd :
    ∀ (cfg : LFConfig) (st : LFState), st.lossCount + 1 < cfg.lossConfirm →
      lineTick cfg st darkTriplet =
        ({ st with lossCount := st.lossCount + 1,
                   lastLeft := (pdPair cfg st.lastErr st.lastErr).1,
                   lastRight := (pdPair cfg st.lastErr st.lastErr).2 },
         ⟨(pdPair cfg st.lastErr st.lastErr).1, (pdPair cfg st.lastErr st.lastErr).1,
          (pdPair cfg st.lastErr st.lastErr).2, (pdPair cfg st.lastErr st.lastErr).2⟩) :=
  fun cfg st h => lineTick_dark_pd cfg st h

/-- Witness for C10: a dark tick with loss counter 3 at the default
`lossConfirm = 10` stays on the PD path. -/
theorem c10_witness :
    (3 : ℕ) + 1 < defaultLF.lossConfirm ∧
    lineTick defaultLF ⟨0, 3, false, 0, 100, 100⟩ darkTriplet =
      (⟨0, 4, false, 0, (pdPair defaultLF 0 0).1, (pdPair defaultLF 0 0).2⟩,
       ⟨(pdPair defaultLF 0 0).1, (pdPair defaultLF 0 0).1,
        (pdPair defaultLF 0 0).2, (pdPair defaultLF 0 0).2⟩) := by
  have h := c10_dark_before_confirm_runs_pd defaultLF ⟨0, 3, false, 0, 100, 100⟩
    (by norm_num [defaultLF])
  exact ⟨by norm_num [defaultLF], h⟩

lemma lineTick_dark_lossCount (cfg : LFConfig) (st : LFState) :
    (lineTick cfg st darkTriplet).1.lossCount = st.lossCount + 1 := by
  simp only [lineTick, darkTriplet]
  norm_num
  split_ifs <;> rfl

lemma lineTick_dark_coast (cfg : LFConfig) (st : LFState)
    (hstop : cfg.stopOnLoss = false) (hcnt : cfg.lossConfirm ≤ st.lossCount + 1) :
    lineTick cfg st darkTriplet =
      ({ st with lossCount := st.lossCount + 1, coasting := true,
                 coastLoops := st.coastLoops + 1 },
       if cfg.lossTimeout ≠ 0 ∧ cfg.lossTimeout < st.coastLoops + 1 then zeroCmd
       else coastCmd cfg st) := by
  simp only [lineTick, darkTriplet, coastCmd, hstop]
  norm_num [hcnt]
  split_ifs <;> rfl

lemma lineDarkState_lossCount (cfg : LFConfig) (st : LFState) :
    ∀ n, (lineDarkState cfg st n).lossCount = st.lossCount + n := by
  intro n
  induction n with
  | zero => rfl
  | succ n ih =>
    show (lineTick cfg (lineDarkState cfg st n) darkTriplet).1.lossCount = _
    rw [lineTick_dark_lossCount, ih]
    omega

lemma lineDarkState_preconfirm_coastLoops (cfg : LFConfig) (st : LFState)
    (h0 : st.lossCount = 0) :
    ∀ n, n < cfg.lossConfirm → (lineDarkState cfg st n).coastLoops = st.coastLoops := by
  intro n
  induction n with
  | zero => intro _; rfl
  | succ n ih =>
    intro hn
    have hcount : (lineDarkState cfg st n).lossCount = n := by
      rw [lineDarkState_lossCount, h0]
      omega
    show (lineTick cfg (lineDarkState cfg st n) darkTriplet).1.coastLoops = _
    rw [lineTick_dark_pd cfg _ (by omega)]
    exact ih (by omega)

lemma lineDarkState_confirm_facts (cfg : LFConfig) (st : LFState)
    (hstop : cfg.stopOnLoss = false) (hc : 1 ≤ cfg.lossConfirm)
    (h0 : st.lossCount = 0) (hcl : st.coastLoops = 0) :
    (lineDarkState cfg st cfg.lossConfirm).lossCount = cfg.lossConfirm ∧
    (lineDarkState cfg st cfg.lossConfirm).coastLoops = 1 ∧
    (lineDarkState cfg st cfg.lossConfirm).coasting = true := by
  obtain ⟨m, hm⟩ : ∃ m, cfg.lossConfirm = m + 1 := ⟨cfg.lossConfirm - 1, by omega⟩
  have hsmCount : (lineDarkState cfg st m).lossCount = m := by
    rw [lineDarkState_lossCount, h0]
    omega
  have hsmCl : (lineDarkState cfg st m).coastLoops = 0 := by
    rw [lineDarkState_preconfirm_coastLoops cfg st h0 m (by omega), hcl]
  rw [hm]
  show (lineTick cfg (lineDarkState cfg st m) darkTriplet).1.lossCount = m + 1 ∧
       (lineTick cfg (lineDarkState cfg st m) darkTriplet).1.coastLoops = 1 ∧
       (lineTick cfg (lineDarkState cfg st m) darkTriplet).1.coasting = true
  rw [lineTick_dark_coast cfg _ hstop (by omega)]
  refine ⟨?_, ?_, rfl⟩
  · show (lineDarkState cfg st m).lossCount + 1 = m + 1
    rw [hsmCount]
  · show (lineDarkState cfg st m).coastLoops + 1 = 1
    rw [hsmCl]

lemma lineDarkState_coast_inv (cfg : LFConfig) (st : LFState)
    (hstop : cfg.stopOnLoss = false) (hc : 1 ≤ cfg.lossConfirm)
    (h0 : st.lossCount = 0) (hcl : st.coastLoops = 0) :
    ∀ j, lineDarkState cfg st (cfg.lossConfirm + j)
      = { lineDarkState cfg st cfg.lossConfirm with
          lossCount := cfg.lossConfirm + j, coastLoops := 1 + j } := by
  obtain ⟨hfc, hfl, hft⟩ := lineDarkState_confirm_facts cfg st hstop hc h0 hcl
  set s := lineDarkState cfg st cfg.lossConfirm with hsdef
  intro j
  induction j with
  | zero =>
    show s = ({ s with lossCount := cfg.lossConfirm + 0, coastLoops := 1 + 0 } : LFState)
    rw [Nat.add_zero, Nat.add_zero, ← hfc, ← hfl]
  | succ j ih =>
    show (lineTick cfg (lineDarkState cfg st (cfg.lossConfirm + j)) darkTriplet).1 = _
    rw [ih, lineTick_dark_coast cfg _ hstop
        (by show cfg.lossConfirm ≤ cfg.lossConfirm + j + 1; omega)]
    show ({ s with
            lossCount := cfg.lossConfirm + j + 1
            coasting := true
            coastLoops := 1 + j + 1 } : LFState)
      = ({ s with
           lossCount := cfg.lossConfirm + (j + 1)
           coastLoops := 1 + (j + 1) } : LFState)
    rw [← hft]
    rfl

/-- Counterexample configuration for C3: defaults with `lossConfirm = 1`. -/
def c3cfg : LFConfig := { defaultLF with lossConfirm := 1 }

/-- Witness configuration for C3: defaults with `lossConfirm = 1`,
`lossTimeout = 2`. -/
def c3wcfg : LFConfig := { defaultLF with lossConfirm := 1, lossTimeout := 2 }

/-- State right after a line-seen tick whose stored command was (994, 994). -/
def c3st : LFState := ⟨0, 0, false, 0, 994, 994⟩

/-- Claim C3 (amended): with `stopOnLoss = false`, once the all-dark streak
reaches `lossConfirm`, the command emitted at dark tick `lossConfirm + k`
(`k = j + 1 ≥ 1`, the tick after index `lossConfirm + j`) is the constant
`trunc(clamp(lastCommand * coastScale, ±2000))` — computed once from the
stored last command, not decayed geometrically — as long as the coast-loop
counter `k + 1` has not exceeded a nonzero `lossTimeout`; afterwards it is
zero. -/
theorem c3_coast_replay :
    ∀ (cfg : LFConfig) (st : LFState) (j : ℕ),
      cfg.stopOnLoss = false → 1 ≤ cfg.lossConfirm →
      st.lossCount = 0 → st.coastLoops = 0 →
      ((cfg.lossTimeout = 0 ∨ j + 1 < cfg.lossTimeout →
         lineDarkEmit cfg st (cfg.lossConfirm + j)
           = coastCmd cfg (lineDarkState cfg st cfg.lossConfirm)) ∧
       (cfg.lossTimeout ≠ 0 → cfg.lossTimeout ≤ j + 1 →
         lineDarkEmit cfg st (cfg.lossConfirm + j) = zeroCmd)) := by
  intro cfg st j hstop hc h0 hcl
  have hE := lineDarkState_coast_inv cfg st hstop hc h0 hcl j
  have hstep : lineDarkEmit cfg st (cfg.lossConfirm + j)
      = if cfg.lossTimeout ≠ 0 ∧ cfg.lossTimeout < (1 + j) + 1 then zeroCmd
        else coastCmd cfg (lineDarkState cfg st cfg.lossConfirm) := by
    unfold lineDarkEmit
    rw [hE, lineTick_dark_coast cfg _ hstop
        (by show cfg.lossConfirm ≤ cfg.lossConfirm + j + 1; omega)]
    rfl
  constructor
  · intro hno
    rw [hstep, if_neg ?_]
    intro hand
    rcases hno with h | h <;> omega
  · intro h1 h2
    rw [hstep, if_pos ⟨h1, by omega⟩]

/-- Counterexample to C3 as stated: with `lossConfirm = 1`, `coastScale =
0.85` and stored last command 994, the command at dark tick `lossConfirm +
k` is 844 for every `k ≥ 1` (truncated once, constant), while the claim's
`round(lastCommand * coastScale^k)` is 845 at `k = 1` (rounding differs)
and 718 at `k = 2` (no geometric decay happens). -/
theorem c3_counterexample :
    (lineDarkEmit c3cfg c3st 1).m1 = 844 ∧
    pyRound ((994 : ℚ) * (85/100) ^ 1) = 845 ∧
    (lineDarkEmit c3cfg c3st 2).m1 = 844 ∧
    pyRound ((994 : ℚ) * (85/100) ^ 2) = 718 := by
  have hs1 : lineDarkState c3cfg c3st 1 = ⟨0, 1, true, 1, 994, 994⟩ := by
    show (lineTick c3cfg c3st darkTriplet).1 = _
    rw [lineTick_dark_coast c3cfg c3st rfl (by norm_num [c3cfg, defaultLF, c3st])]
    rfl
  have hs2 : lineDarkState c3cfg c3st 2 = ⟨0, 2, true, 2, 994, 994⟩ := by
    show (lineTick c3cfg (lineDarkState c3cfg c3st 1) darkTriplet).1 = _
    rw [hs1, lineTick_dark_coast c3cfg _ rfl (by norm_num [c3cfg, defaultLF])]
  have hcoast : ∀ s : LFState, s.lastLeft = 994 →
      (coastCmd c3cfg s).m1 = 844 := by
    intro s hs
    unfold coastCmd clamp pyInt
    rw [hs]
    norm_num [c3cfg, defaultLF, Int.floor_eq_iff]
  have he1 : (lineDarkEmit c3cfg c3st 1).m1 = 844 := by
    unfold lineDarkEmit
    rw [hs1, lineTick_dark_coast c3cfg _ rfl (by norm_num [c3cfg, defaultLF])]
    rw [if_neg (by norm_num [c3cfg, defaultLF])]
    exact hcoast _ rfl
  have he2 : (lineDarkEmit c3cfg c3st 2).m1 = 844 := by
    unfold lineDarkEmit
    rw [hs2, lineTick_dark_coast c3cfg _ rfl (by norm_num [c3cfg, defaultLF])]
    rw [if_neg (by norm_num [c3cfg, defaultLF])]
    exact hcoast _ rfl
  refine ⟨he1, ?_, he2, ?_⟩
  · unfold pyRound
    norm_num [Int.floor_eq_iff]
  · unfold pyRound
    norm_num [Int.floor_eq_iff]

/-- Witness for C3 (amended): `lossConfirm = 1`, `lossTimeout = 2`; at
`j = 0` (tick `lossConfirm + 1`) the coast command is replayed, at `j = 2`
(tick `lossConfirm + 3`) the timeout has been exceeded and zero is emitted. -/
theorem c3_witness :
    c3wcfg.stopOnLoss = false ∧ 1 ≤ c3wcfg.lossConfirm ∧
    c3st.lossCount = 0 ∧ c3st.coastLoops = 0 ∧
    (c3wcfg.lossTimeout = 0 ∨ 0 + 1 < c3wcfg.lossTimeout) ∧
    lineDarkEmit c3wcfg c3st (c3wcfg.lossConfirm + 0)
      = coastCmd c3wcfg (lineDarkState c3wcfg c3st c3wcfg.lossConfirm) ∧
    (c3wcfg.lossTimeout ≠ 0 ∧ c3wcfg.lossTimeout ≤ 2 + 1) ∧
    lineDarkEmit c3wcfg c3st (c3wcfg.lossConfirm + 2) = zeroCmd := by
  have h0 := c3_coast_replay c3wcfg c3st 0 rfl (by norm_num [c3wcfg, defaultLF]) rfl rfl
  have h2 := c3_coast_replay c3wcfg c3st 2 rfl (by norm_num [c3wcfg, defaultLF]) rfl rfl
  refine ⟨rfl, by norm_num [c3wcfg, defaultLF], rfl, rfl, ?_, ?_, ?_, ?_⟩
  · exact Or.inr (by norm_num [c3wcfg, defaultLF])
  · exact h0.1 (Or.inr (by norm_num [c3wcfg, defaultLF]))
  · exact ⟨by norm_num [c3wcfg, defaultLF], by norm_num [c3wcfg, defaultLF]⟩
  · exact h2.2 (by norm_num [c3wcfg, defaultLF]) (by norm_num [c3wcfg, defaultLF])

/-- A scan state mid-sweep: pan oscillator at 50° (away from the 90° center),
tilt oscillator at 80°. -/
def c6st : NavState := ⟨⟨50, 1⟩, ⟨80, 1⟩, 0, 9999, 50, 80⟩

/-- Tick input for C6: a 40 cm obstacle ahead (below the 45 cm threshold),
with valid probe readings. -/
def c6inp : NavInput :=
  ⟨(some 40, some 40), (some 100, some 100), (some 50, some 50),
   (some 60, some 60), (some 60, some 60)⟩

lemma navTick_recovery (cfg : NavConfig) (st : NavState) (inp : NavInput)
    (hs : (st.ticks + 1) % max 1 cfg.sampleEvery = 0)
    (hob : avgCm inp.ahead.1 inp.ahead.2 ≤ cfg.obsTh) :
    (navTick cfg st inp).probes
      = [(cfg.pan.center + 25, cfg.tilt.center), (cfg.pan.center - 25, cfg.tilt.center),
         (cfg.pan.center, min cfg.tilt.maxDeg (cfg.tilt.center + 15)),
         (cfg.pan.center, max cfg.tilt.minDeg (cfg.tilt.center - 15))] ∧
    (navTick cfg st inp).pivotDur.isSome = true := by
  simp only [navTick]
  rw [if_pos hs, if_pos hob]
  split_ifs <;> exact ⟨rfl, rfl⟩

set_option maxHeartbeats 800000 in
lemma navTick_state_oscillators (cfg : NavConfig) (st : NavState) (inp : NavInput) :
    (navTick cfg st inp).state.ps = sweepTick cfg.panLo cfg.panHi (max 1 cfg.panSpeed) st.ps ∧
    (navTick cfg st inp).state.tos
      = sweepTick cfg.tiltLow cfg.tiltHigh (max 1 cfg.tiltStep) st.tos := by
  simp only [navTick]
  split_ifs <;> exact ⟨rfl, rfl⟩

/-- Counterexample to C6 as stated: with the scan mid-sweep (pan oscillator
advanced to 56° this tick), the first (left) peek target is pan 115° =
panCenter + 25°, not 56° + 25° = 81°: the offsets are taken from the
configured center, not from the current scan position. -/
theorem c6_counterexample :
    (navTick defaultNav c6st c6inp).probes.head? = some (115, 80) ∧
    (navTick defaultNav c6st c6inp).state.ps.pos = 56 ∧ ¬((56 : ℤ) + 25 = 115) := by
  have hr := navTick_recovery defaultNav c6st c6inp (by norm_num [defaultNav, c6st])
    (by norm_num [avgCm, readCm, c6inp, defaultNav, List.filterMap_cons, List.filterMap_nil])
  have hosc := (navTick_state_oscillators defaultNav c6st c6inp).1
  refine ⟨?_, ?_, by norm_num⟩
  · rw [hr.1]
    norm_num [defaultNav]
  · rw [hosc]
    norm_num [sweepTick, defaultNav, c6st]

set_option maxHeartbeats 800000 in
/-- Claim C6 (amended): whenever the recovery sequence runs, the four peek
targets are fixed offsets from the configured head centers — (panCenter+25°,
tiltCenter), (panCenter-25°, tiltCenter), (panCenter, tiltCenter+15° capped
at tiltMax), (panCenter, tiltCenter-15° floored at tiltMin) — in that order,
each a 2-sample average; after each peek the head is restored to the
(clamped) pre-probe scan angles and the oscillator state is untouched. -/
theorem c6_probe_targets :
    ∀ (cfg : NavConfig) (st : NavState) (inp : NavInput) (p t : ℤ) (a b : Option ℚ),
      ((navTick cfg st inp).pivotDur.isSome = true →
        (navTick cfg st inp).probes
          = [(cfg.pan.center + 25, cfg.tilt.center), (cfg.pan.center - 25, cfg.tilt.center),
             (cfg.pan.center, min cfg.tilt.maxDeg (cfg.tilt.center + 15)),
             (cfg.pan.center, max cfg.tilt.minDeg (cfg.tilt.center - 15))]) ∧
      (peekPanTilt cfg st p t a b).2.ps = st.ps ∧
      (peekPanTilt cfg st p t a b).2.tos = st.tos ∧
      (peekPanTilt cfg st p t a b).2.headPan = servoAngle cfg.pan st.ps.pos ∧
      (peekPanTilt cfg st p t a b).2.headTilt = servoAngle cfg.tilt st.tos.pos := by
  intro cfg st inp p t a b
  refine ⟨fun hrec => ?_, rfl, rfl, rfl, rfl⟩
  revert hrec
  simp only [navTick]
  split_ifs <;> intro hrec <;> first | rfl | exact absurd hrec (by simp)

/-- Witness for C6 (amended): the concrete recovery tick of the
counterexample state, with a peek-restore instance. -/
theorem c6_witness :
    (navTick defaultNav c6st c6inp).pivotDur.isSome = true ∧
    (navTick defaultNav c6st c6inp).probes = [(115, 80), (65, 80), (90, 95), (90, 65)] ∧
    (peekPanTilt defaultNav c6st 115 80 (some 100) (some 100)).2.ps = c6st.ps ∧
    (peekPanTilt defaultNav c6st 115 80 (some 100) (some 100)).2.headPan
      = servoAngle defaultNav.pan c6st.ps.pos := by
  have hr := navTick_recovery defaultNav c6st c6inp (by norm_num [defaultNav, c6st])
    (by norm_num [avgCm, readCm, c6inp, defaultNav, List.filterMap_cons, List.filterMap_nil])
  have h := c6_probe_targets defaultNav c6st c6inp 115 80 (some 100) (some 100)
  refine ⟨hr.2, ?_, h.2.1, h.2.2.2.1⟩
  rw [h.1 hr.2]
  norm_num [defaultNav]

end LeRover
